import Mathlib

/-!
Verification of the `gossip` UDP transport library (`udp.go`).

The Go source is shallowly embedded as follows:

* `Message` (Go `type Message []byte`) is `List UInt8`.
* `*net.UDPAddr` values are `Option UDPAddr`; a `nil` pointer is `none`.
* `os.Error` values are represented by their message string (`os.NewError`
  wraps a string; every error in this library is created that way).
* Go channels are modelled as `Chan` values (capacity, buffered contents,
  closed flag) living in a `Heap` indexed by allocation order, so channel
  identity (needed to speak about `close(conn.Err)` followed by the field
  being re-bound to a fresh channel) is observable.  `Chan.send` records the
  value in the buffer; the blocking behaviour of a full or unbuffered
  channel is a liveness matter and is not modelled.
* The network layer (`net.ResolveUDPAddr`, `net.ListenUDP`, `net.DialUDP`,
  socket reads and writes) is external to the repository; its outcomes are
  injected as oracle values (`Net`, per-iteration read/write results).
* The three pipeline goroutines (`sending`, `receiving`, `dispatching`)
  are modelled as functions over the finite trace of items they dequeue,
  threading the connection and the channel heap explicitly and returning
  the state reached when the trace is exhausted or the loop breaks.
* Event handlers (Go closures `func(*Conn, *Packet)`) are opaque values of
  a type parameter `H`; the dispatcher is observed through the ordered list
  of invocation launches (`go f(conn, p)`) it performs.
-/

namespace Gossip

/-- Go: `type Message []byte` — payload carried by UDP. -/
abbrev Message := List UInt8

/-- Go: `const MessageSize = 512` (see RFC 1035 Section 4.2.1). -/
def MessageSize : Nat := 512

/-- Go: `*net.UDPAddr`, abstracted to a host/port pair (the `net` package
is an external collaborator of this repository). -/
structure UDPAddr where
  host : String
  port : Nat
deriving DecidableEq, Repr

/-- Go: `(*net.UDPAddr).String()`, lifted to the pointer (`Option`) level:
the `net` package formats a `nil` address pointer as `"<nil>"`. -/
def udpAddrString : Option UDPAddr → String
  | none => "<nil>"
  | some a => a.host ++ ":" ++ toString a.port

/-- Go: `type Packet struct { Addr *net.UDPAddr; Msg Message }`. -/
structure Packet where
  Addr : Option UDPAddr
  Msg : Message
deriving DecidableEq, Repr

/-- Go: `*net.UDPConn`, an opaque socket handle issued by the network layer. -/
structure UDPConn where
  fd : Nat
deriving DecidableEq, Repr

/-- A Go channel value: capacity, buffered contents (oldest first), and
whether `close` has been called on it. -/
structure Chan (α : Type) where
  capacity : Nat
  buffer : List α
  closed : Bool
deriving DecidableEq, Repr

/-- Go: `make(chan α, cap)` — a fresh, open, empty channel. -/
def Chan.make (cap : Nat) : Chan α :=
  ⟨cap, [], false⟩

/-- A send (`ch <- v`) records the value in the buffer. -/
def Chan.send (c : Chan α) (v : α) : Chan α :=
  { c with buffer := c.buffer ++ [v] }

/-- A store of channel values indexed by allocation order, so that a field
being re-bound to a fresh channel is distinguishable from the old channel
(whose identity the caller may still hold). -/
structure Heap (α : Type) where
  next : Nat
  store : Nat → Option (Chan α)

/-- The empty channel store. -/
def Heap.empty : Heap α :=
  ⟨0, fun _ => none⟩

/-- Allocate a fresh channel of the given capacity, returning its id. -/
def Heap.alloc (h : Heap α) (cap : Nat) : Nat × Heap α :=
  (h.next, ⟨h.next + 1, fun i => if i = h.next then some (Chan.make cap) else h.store i⟩)

/-- Go: `close(ch)` — mark the channel closed; buffered values remain
readable. -/
def Heap.closeCh (h : Heap α) (id : Nat) : Heap α :=
  ⟨h.next, fun i => if i = id then (h.store i).map (fun c => { c with closed := true }) else h.store i⟩

/-- Go: `ch <- v` addressed through the store. -/
def Heap.sendCh (h : Heap α) (id : Nat) (v : α) : Heap α :=
  ⟨h.next, fun i => if i = id then (h.store i).map (fun c => Chan.send c v) else h.store i⟩

/-- The channel state outside any one connection: the store of packet
channels (`chan *Packet`, elements `Option Packet` since a `*Packet` may be
`nil`), the store of error channels (`chan os.Error`, elements are the error
message strings), and the sockets on which `Close()` has been called. -/
structure World where
  pchans : Heap (Option Packet)
  echans : Heap String
  closedSocks : List UDPConn

/-- A world with no channels allocated and no sockets closed. -/
def World.empty : World :=
  ⟨Heap.empty, Heap.empty, []⟩

/-- Go: `type Conn struct { Err chan os.Error; handlers []EventHandler;
sock *net.UDPConn; in, out chan *Packet }`.  Handlers (`EventHandler`,
a Go closure type) are opaque values of the parameter `H`; the channel
fields hold ids into the `World` stores.  The Go field `in` is named `in_`
because `in` is a Lean keyword. -/
structure Conn (H : Type) where
  Err : Nat
  handlers : List H
  sock : Option UDPConn
  in_ : Nat
  out : Nat
deriving DecidableEq, Repr

/-- Go error singletons (`os.NewError(...)` values, represented by their
message strings).  `ErrClosedConn`'s text reproduces the source verbatim,
misspelling included. -/
def ErrAlreadyConnected : String := "Socket is already open"

/-- Go: `ErrClosedConn = os.NewError("Socked has been closed")`. -/
def ErrClosedConn : String := "Socked has been closed"

/-- Go: `ErrNilPacket = os.NewError("Encountered nil packet")`. -/
def ErrNilPacket : String := "Encountered nil packet"

/-- Go: `conn.initialize()` — allocate fresh internal and external data
structures: unbuffered `in` and `out` packet channels, an error channel of
capacity 4, an empty handler slice (`make([]EventHandler, 0, 4)`), and a
nil socket.  Every field of the connection is (re)assigned, so the function
only needs the world. -/
def initConn (H : Type) (w : World) : Conn H × World :=
  let ain := w.pchans.alloc 0
  let aout := ain.2.alloc 0
  let aerr := w.echans.alloc 4
  (⟨aerr.1, [], none, ain.1, aout.1⟩, { w with pchans := aout.2, echans := aerr.2 })

/-- Go: `NewConn()` — allocate a connection without opening the socket. -/
def NewConn (H : Type) (w : World) : Conn H × World :=
  initConn H w

/-- Go: `conn.IsConnected()` — `conn.sock != nil`. -/
def Conn.IsConnected (conn : Conn H) : Bool :=
  conn.sock.isSome

/-- Go: `conn.Disconnect()` — `close(conn.in)`, `close(conn.out)`,
`close(conn.Err)`, `conn.sock.Close()` when the socket is non-nil (recorded
in `closedSocks`), then `conn.initialize()` to be ready for the next
connection. -/
def Conn.Disconnect (conn : Conn H) (w : World) : Conn H × World :=
  let w1 : World := { w with pchans := (w.pchans.closeCh conn.in_).closeCh conn.out }
  let w2 : World := { w1 with echans := w1.echans.closeCh conn.Err }
  let w3 : World :=
    { w2 with closedSocks :=
        match conn.sock with
        | some s => s :: w2.closedSocks
        | none => w2.closedSocks }
  initConn H w3

/-- The network layer's oracle: outcomes of `net.ResolveUDPAddr`,
`net.ListenUDP(network, laddr)` and `net.DialUDP(network, laddr, raddr)`
(an `Except` error carries the `os.Error`'s message). -/
structure Net where
  resolveUDPAddr : String → Except String UDPAddr
  listenUDP : String → UDPAddr → Except String UDPConn
  dialUDP : String → Option UDPAddr → UDPAddr → Except String UDPConn

/-- Go: `NewPacket(addr, msg)` — returns a nil packet (`none`) if the addr
cannot be resolved, otherwise `&Packet{udpAddr, msg}`. -/
def NewPacket (netw : Net) (addr : String) (msg : Message) : Option Packet :=
  match netw.resolveUDPAddr addr with
  | .error _ => none
  | .ok udpAddr => some ⟨some udpAddr, msg⟩

/-- Go: `conn.Listen(port)` — rejects when already connected, resolves
`":" + strconv.Uitoa(port)`, binds via `net.ListenUDP("udp4", laddr)`
(which yields a nil socket on failure), then spawns the three pipeline
workers (`conn.spawn()`, modelled separately as the loop functions below)
and returns a nil error.  The returned pair is the updated connection and
the returned `os.Error`. -/
def Conn.Listen (conn : Conn H) (port : Nat) (netw : Net) : Conn H × Option String :=
  if conn.IsConnected then (conn, some ErrAlreadyConnected)
  else
    match netw.resolveUDPAddr (":" ++ toString port) with
    | .error e => (conn, some e)
    | .ok laddr =>
      match netw.listenUDP "udp4" laddr with
      | .error e => ({ conn with sock := none }, some e)
      | .ok s => ({ conn with sock := some s }, none)

/-- Go: `conn.Dial(remoteAddr)` — rejects when already connected, resolves
the remote address, connects via `net.DialUDP("udp4", nil, raddr)`, spawns
the workers and returns a nil error. -/
def Conn.Dial (conn : Conn H) (remoteAddr : String) (netw : Net) : Conn H × Option String :=
  if conn.IsConnected then (conn, some ErrAlreadyConnected)
  else
    match netw.resolveUDPAddr remoteAddr with
    | .error e => (conn, some e)
    | .ok raddr =>
      match netw.dialUDP "udp4" none raddr with
      | .error e => ({ conn with sock := none }, some e)
      | .ok s => ({ conn with sock := some s }, none)

/-- Go: `conn.send(msg, addr)` — write a packet to the internal `out`
channel, which is read by `sending()`; `addr` may be nil after `Dial`. -/
def Conn.sendPkt (conn : Conn H) (w : World) (msg : Message) (addr : Option UDPAddr) : World :=
  { w with pchans := w.pchans.sendCh conn.out (some ⟨addr, msg⟩) }

/-- Go: `conn.Unicast(msg)` — send to the earlier dialed remote end-point. -/
def Conn.Unicast (conn : Conn H) (w : World) (msg : Message) : World :=
  conn.sendPkt w msg none

/-- Go: `conn.UnicastTo(msg, addr)` — send to the given remote end-point. -/
def Conn.UnicastTo (conn : Conn H) (w : World) (msg : Message) (addr : UDPAddr) : World :=
  conn.sendPkt w msg (some addr)

/-- Go: `conn.error(s, a...)` — `conn.Err <- os.NewError(fmt.Sprintf(s, a...))`.
Every call site passes a constant format with string arguments, so the
already-formatted message is taken as the argument here. -/
def Conn.error (conn : Conn H) (w : World) (msg : String) : World :=
  { w with echans := w.echans.sendCh conn.Err msg }

/-- Go: `conn.AddHandler(f)` — `conn.handlers = append(conn.handlers, f)`. -/
def Conn.AddHandler (conn : Conn H) (f : H) : Conn H :=
  { conn with handlers := conn.handlers ++ [f] }

/-- Go: `makeMessage()` — `make(Message, MessageSize)`, a zeroed buffer. -/
def makeMessage : Message :=
  List.replicate MessageSize 0

/-- Go: `copy(dst, src)` — copies `min (len dst) (len src)` bytes into the
front of `dst`, leaving the remainder of `dst` unchanged. -/
def goCopy (dst src : List UInt8) : List UInt8 :=
  src.take (min dst.length src.length) ++ dst.drop (min dst.length src.length)

/-- The message the receiver loop builds from a read buffer `buff` and an
arriving datagram `data`: `msg := make(Message, msgSize)` followed by
`copy(msg, buff)` on the post-read buffer, where
`msgSize = min (len buff) (len data)` is the byte count `ReadFrom`
returned. -/
def recvMsg (buff data : Message) : Message :=
  goCopy (List.replicate (min buff.length data.length) 0) (goCopy buff data)

/-- Observable actions of the sender loop: a socket write attempt
(`conn.sock.Write` / `conn.sock.WriteTo`, with the message and the optional
explicit destination) and the call to `conn.Disconnect()`. -/
inductive SendEvent where
  | wrote (msg : Message) (addr : Option UDPAddr)
  | disconnected
deriving DecidableEq, Repr

/-- Go: `conn.sending()` — `for p := range conn.out { ... }`.  The loop is
modelled over the finite trace of dequeued items: each element pairs the
dequeued `*Packet` (`none` for a nil pointer) with the outcome the socket
write would produce if attempted at that iteration (`.ok n` or
`.error msg`, the `n, err` pair returned by `Write`/`WriteTo`).  Returns
the connection and world when the trace is exhausted or the loop breaks,
together with the list of observable events.  Mirrors the source: a nil
packet reports `ErrNilPacket` and continues; a packet with a nil `Addr` is
written with `Write` (reporting a wrapped `ErrClosedConn` and continuing
when not connected — the source formats the nil `p.Addr` into that
message); a packet with an address is written with `WriteTo` (same
not-connected guard, without the address in the message); any write error
is reported via `conn.error`, then `conn.Disconnect()` runs and the loop
breaks. -/
def Conn.sending (conn : Conn H) (w : World) :
    List (Option Packet × Except String Nat) → Conn H × World × List SendEvent
  | [] => (conn, w, [])
  | (p?, wres) :: rest =>
    match p? with
    | none =>
      let w1 : World := { w with echans := w.echans.sendCh conn.Err ErrNilPacket }
      conn.sending w1 rest
    | some p =>
      match p.Addr with
      | none =>
        if conn.IsConnected then
          match wres with
          | .ok _ =>
            let r := conn.sending w rest
            (r.1, r.2.1, SendEvent.wrote p.Msg none :: r.2.2)
          | .error e =>
            let w1 := conn.error w ("conn.sending(): " ++ e)
            let r := conn.Disconnect w1
            (r.1, r.2, [SendEvent.wrote p.Msg none, SendEvent.disconnected])
        else
          let w1 := conn.error w
            ("conn.sending(): [" ++ udpAddrString none ++ "] " ++ ErrClosedConn)
          conn.sending w1 rest
      | some a =>
        if conn.IsConnected then
          match wres with
          | .ok _ =>
            let r := conn.sending w rest
            (r.1, r.2.1, SendEvent.wrote p.Msg (some a) :: r.2.2)
          | .error e =>
            let w1 := conn.error w
              ("conn.sending() [" ++ udpAddrString (some a) ++ "]: " ++ e)
            let r := conn.Disconnect w1
            (r.1, r.2, [SendEvent.wrote p.Msg (some a), SendEvent.disconnected])
        else
          let w1 := conn.error w ("conn.sending(): " ++ ErrClosedConn)
          conn.sending w1 rest

/-- One iteration's outcome of `conn.sock.ReadFrom(buff)`: either the bytes
of the arriving datagram together with the sender's address (`none` when
the `addr.(*net.UDPAddr)` type assertion would yield nil), or a read
error's message. -/
inductive ReadOutcome where
  | ok (data : Message) (addr : Option UDPAddr)
  | err (e : String)
deriving DecidableEq, Repr

/-- Go: `conn.receiving()` — loops on `conn.sock.ReadFrom(buff)` with a
single reused buffer.  A successful read of a datagram `data` copies
`min (len buff) (len data)` bytes into the front of `buff` and returns that
count as `msgSize`; the loop then allocates `msg := make(Message, msgSize)`,
runs `copy(msg, buff)`, and sends `&Packet{udpAddr, msg}` on `conn.in`.
A read error is reported via `conn.error`, `conn.Disconnect()` runs, and
the loop breaks.  Modelled over the finite trace of read outcomes; the
initial call uses `buff = makeMessage`. -/
def Conn.receiving (conn : Conn H) (w : World) (buff : Message) :
    List ReadOutcome → Conn H × World
  | [] => (conn, w)
  | ReadOutcome.err e :: _ =>
    let w1 := conn.error w ("conn.receiving(): " ++ e)
    conn.Disconnect w1
  | ReadOutcome.ok data addr :: rest =>
    let buff1 := goCopy buff data
    let msgSize := min buff.length data.length
    let msg := goCopy (List.replicate msgSize 0) buff1
    let w1 : World := { w with pchans := w.pchans.sendCh conn.in_ (some ⟨addr, msg⟩) }
    conn.receiving w1 buff1 rest

/-- One handler-invocation launch performed by the dispatcher: Go's
`go f(conn, p)`.  The invocation runs concurrently and is never awaited;
only the launch itself (handler, arguments) is recorded. -/
structure Launch (H : Type) where
  handler : H
  conn : Conn H
  pkt : Option Packet
deriving DecidableEq, Repr

/-- Go: `conn.dispatchEvent(p)` — `for _, f := range conn.handlers
{ go f(conn, p) }`: one launch per registered handler, in registration
order. -/
def Conn.dispatchEvent (conn : Conn H) (p : Option Packet) : List (Launch H) :=
  conn.handlers.map (fun f => ⟨f, conn, p⟩)

/-- Go: `conn.dispatching()` — `for p := range conn.in
{ conn.dispatchEvent(p) }`, modelled over the finite trace of dequeued
packets; yields all launches in order. -/
def Conn.dispatching (conn : Conn H) : List (Option Packet) → List (Launch H)
  | [] => []
  | p :: rest => conn.dispatchEvent p ++ conn.dispatching rest

/-- The wrapped error message the sender loop reports for a failed socket
write: `conn.error("conn.sending(): %s", err.String())` when the packet
has no address (plain `Write`), and
`conn.error("conn.sending() [%s]: %s", p.Addr.String(), err.String())`
when it has one (`WriteTo`). -/
def sendFailMsg (addr : Option UDPAddr) (e : String) : String :=
  match addr with
  | none => "conn.sending(): " ++ e
  | some a => "conn.sending() [" ++ udpAddrString (some a) ++ "]: " ++ e

/-- A sample network oracle whose resolutions and binds all succeed, used
to instantiate lifecycle statements on concrete inputs. -/
def sampleNet : Net :=
  ⟨fun _ => Except.ok ⟨"h", 1⟩, fun _ _ => Except.ok ⟨7⟩, fun _ _ _ => Except.ok ⟨8⟩⟩

/-! ### Helper lemmas -/

/-- The connection returned by `Disconnect` is the one built by
`conn.initialize()`: next-allocated channel ids, empty handler list, nil
socket. -/
theorem Disconnect_fst (conn : Conn H) (w : World) :
    (conn.Disconnect w).1 = ⟨w.echans.next, [], none, w.pchans.next, w.pchans.next + 1⟩ := by
  rfl

/-- The packet-channel store after `Disconnect`: the old `in` and `out`
channels are closed and two fresh unbuffered channels are allocated on
top. -/
theorem Disconnect_snd_pchans (conn : Conn H) (w : World) :
    (conn.Disconnect w).2.pchans =
      ⟨w.pchans.next + 2, fun i =>
        if i = w.pchans.next + 1 then some (Chan.make 0)
        else if i = w.pchans.next then some (Chan.make 0)
        else ((w.pchans.closeCh conn.in_).closeCh conn.out).store i⟩ := by
  rfl

/-- The error-channel store after `Disconnect`: the old `Err` channel is
closed and a fresh channel of capacity 4 is allocated on top. -/
theorem Disconnect_snd_echans (conn : Conn H) (w : World) :
    (conn.Disconnect w).2.echans =
      ⟨w.echans.next + 1, fun i =>
        if i = w.echans.next then some (Chan.make 4)
        else (w.echans.closeCh conn.Err).store i⟩ := by
  rfl

/-- `goCopy` leaves the destination's length unchanged. -/
theorem goCopy_length (dst src : List UInt8) :
    (goCopy dst src).length = dst.length := by
  simp [goCopy]

/-- Copying into a fresh zeroed buffer of length `n ≤ len src` yields the
first `n` bytes of `src`. -/
theorem goCopy_replicate (n : Nat) (src : List UInt8) (h : n ≤ src.length) :
    goCopy (List.replicate n 0) src = src.take n := by
  simp [goCopy, Nat.min_eq_left h, List.drop_replicate]

/-! ### Claims -/

/-- Claim C3 counterexample: `Disconnect` does not preserve registered
handlers.  A connection holding the registered handler `7` has an empty
registry immediately after `Disconnect` returns, because `Disconnect` calls
`conn.initialize()`, which assigns `conn.handlers = make([]EventHandler, 0, 4)`. -/
theorem c3_handlers_not_preserved_cex :
    (7 : Nat) ∈ (⟨0, [7], some ⟨0⟩, 1, 2⟩ : Conn Nat).handlers ∧
    (7 : Nat) ∉ ((Conn.Disconnect (⟨0, [7], some ⟨0⟩, 1, 2⟩ : Conn Nat) World.empty).1).handlers := by
  decide

/-- Claim C3 as amended: `Disconnect()` resets the handler registry: after
`Disconnect` returns, the registry is empty, so handlers are NOT preserved
across reconnects and must be re-registered by the caller. -/
theorem c3_disconnect_clears_handlers {H : Type} (conn : Conn H) (w : World) :
    ((conn.Disconnect w).1).handlers = [] := by
  rw [Disconnect_fst]

/-- Claim C8: when the sender loop dequeues a nil packet it reports
`ErrNilPacket` on the error channel and continues with the next packet:
processing `(nil, _) :: rest` equals processing `rest` with the error
recorded, and on the trace consisting only of the nil packet the loop ends
with the connection untouched, no write and no disconnect. -/
theorem c8_nil_packet_nonfatal {H : Type} (conn : Conn H) (w : World)
    (wres : Except String Nat) (rest : List (Option Packet × Except String Nat)) :
    conn.sending w ((none, wres) :: rest) =
      conn.sending { w with echans := w.echans.sendCh conn.Err ErrNilPacket } rest ∧
    (conn.sending w [(none, wres)]).1 = conn ∧
    (conn.sending w [(none, wres)]).2.2 = [] := by
  refine ⟨?_, ?_, ?_⟩ <;> simp [Conn.sending]

/-- Claim C7: the dispatcher launches exactly one invocation per registered
handler, in registration order, each with the owning connection and the
dequeued packet; `AddHandler` appends at the end, preserving earlier
registrations and their order; and the dispatch loop handles the queue in
arrival order, one `dispatchEvent` per dequeued packet. -/
theorem c7_dispatch_fanout {H : Type} (conn : Conn H) (f : H) (p q : Option Packet)
    (qs : List (Option Packet)) :
    (conn.AddHandler f).handlers = conn.handlers ++ [f] ∧
    (conn.dispatchEvent p).map Launch.handler = conn.handlers ∧
    (∀ l ∈ conn.dispatchEvent p, l.conn = conn ∧ l.pkt = p) ∧
    (conn.dispatchEvent p).length = conn.handlers.length ∧
    conn.dispatching (q :: qs) = conn.dispatchEvent q ++ conn.dispatching qs := by
  refine ⟨rfl, ?_, ?_, ?_, rfl⟩
  · simp only [Conn.dispatchEvent, List.map_map]
    exact List.map_id conn.handlers
  · intro l hl
    simp only [Conn.dispatchEvent] at hl
    rcases List.mem_map.mp hl with ⟨g, _, rfl⟩
    exact ⟨rfl, rfl⟩
  · simp [Conn.dispatchEvent]

/-- Witness for claim C7: the fan-out facts evaluated on a concrete two-handler
connection and concrete packets. -/
theorem c7_dispatch_fanout_w :
    ((⟨0, [1, 2], none, 1, 2⟩ : Conn Nat).AddHandler 3).handlers = [1, 2] ++ [3] ∧
    ((⟨0, [1, 2], none, 1, 2⟩ : Conn Nat).dispatchEvent none).map Launch.handler = [1, 2] ∧
    (∀ l ∈ (⟨0, [1, 2], none, 1, 2⟩ : Conn Nat).dispatchEvent none,
      l.conn = (⟨0, [1, 2], none, 1, 2⟩ : Conn Nat) ∧ l.pkt = none) ∧
    ((⟨0, [1, 2], none, 1, 2⟩ : Conn Nat).dispatchEvent none).length = ([1, 2] : List Nat).length ∧
    (⟨0, [1, 2], none, 1, 2⟩ : Conn Nat).dispatching (none :: []) =
      (⟨0, [1, 2], none, 1, 2⟩ : Conn Nat).dispatchEvent none ++
        (⟨0, [1, 2], none, 1, 2⟩ : Conn Nat).dispatching [] :=
  c7_dispatch_fanout (⟨0, [1, 2], none, 1, 2⟩ : Conn Nat) 3 none none []

/-- Claim C10: `NewPacket(addr, msg)` returns nil exactly when the address fails
to resolve; on successful resolution it returns a packet holding the
resolved address and exactly the given message. -/
theorem c10_newPacket (netw : Net) (addr : String) (msg : Message) :
    (NewPacket netw addr msg = none ↔ ∃ e, netw.resolveUDPAddr addr = Except.error e) ∧
    (∀ a, netw.resolveUDPAddr addr = Except.ok a →
      NewPacket netw addr msg = some ⟨some a, msg⟩) := by
  refine ⟨⟨?_, ?_⟩, ?_⟩
  · intro h
    cases hr : netw.resolveUDPAddr addr with
    | error e => exact ⟨e, rfl⟩
    | ok a => simp [NewPacket, hr] at h
  · rintro ⟨e, he⟩
    simp [NewPacket, he]
  · intro a ha
    simp [NewPacket, ha]

/-- Witness for claim C10: under a resolver that succeeds, `NewPacket` returns the
packet with the resolved address and the given message. -/
theorem c10_newPacket_w :
    NewPacket sampleNet "a:1" [1] = some ⟨some ⟨"h", 1⟩, [1]⟩ :=
  (c10_newPacket sampleNet "a:1" [1]).2 ⟨"h", 1⟩ rfl

/-- Claim C6: a successful read of datagram `data` pushes onto the inbound queue
a packet holding the sender's address and a fresh message of length exactly
`msgSize = min (len buff) (len data)` (the byte count `ReadFrom` returns)
whose contents are the first `msgSize` bytes of the updated read buffer,
and the loop continues with the rest of the trace. -/
theorem c6_receive_copies_exact {H : Type} (conn : Conn H) (w : World)
    (buff data : Message) (addr : Option UDPAddr) (rest : List ReadOutcome) :
    conn.receiving w buff (ReadOutcome.ok data addr :: rest) =
      conn.receiving { w with pchans := w.pchans.sendCh conn.in_ (some ⟨addr, recvMsg buff data⟩) } (goCopy buff data) rest ∧
    (recvMsg buff data).length = min buff.length data.length ∧
    recvMsg buff data = (goCopy buff data).take (min buff.length data.length) := by
  have hlen : min buff.length data.length ≤ (goCopy buff data).length := by
    rw [goCopy_length]
    omega
  refine ⟨rfl, ?_, ?_⟩
  · simp only [recvMsg]
    rw [goCopy_replicate _ _ hlen, List.length_take]
    omega
  · simp only [recvMsg]
    exact goCopy_replicate _ _ hlen

/-- Claim C1: an I/O fault in either pipeline loop is fatal.  If a socket write
returns an error, the sender reports the wrapped error on the error
channel, runs `Disconnect`, and terminates without touching the remaining
trace; if a socket read returns an error, the receiver does the same. -/
theorem c1_io_fault_fatal {H : Type} (conn conn2 : Conn H) (w w2 : World)
    (p : Packet) (s : UDPConn) (e e2 : String)
    (rest : List (Option Packet × Except String Nat))
    (buff : Message) (rest2 : List ReadOutcome)
    (h : conn.sock = some s) :
    conn.sending w ((some p, Except.error e) :: rest) =
      ((conn.Disconnect (conn.error w (sendFailMsg p.Addr e))).1,
       (conn.Disconnect (conn.error w (sendFailMsg p.Addr e))).2,
       [SendEvent.wrote p.Msg p.Addr, SendEvent.disconnected]) ∧
    conn2.receiving w2 buff (ReadOutcome.err e2 :: rest2) =
      conn2.Disconnect (conn2.error w2 ("conn.receiving(): " ++ e2)) := by
  constructor
  · obtain ⟨addr, msg⟩ := p
    cases addr <;> simp [Conn.sending, Conn.IsConnected, h, sendFailMsg]
  · rfl

/-- Witness for claim C1: the fatal-fault behaviour evaluated on a concrete
connected connection, one failing write, and one failing read. -/
theorem c1_io_fault_fatal_w :
    Conn.sending (⟨0, [], some ⟨1⟩, 1, 2⟩ : Conn Nat) World.empty
        [(some ⟨none, [3]⟩, Except.error "boom")] =
      ((Conn.Disconnect (⟨0, [], some ⟨1⟩, 1, 2⟩ : Conn Nat)
          (Conn.error (⟨0, [], some ⟨1⟩, 1, 2⟩ : Conn Nat) World.empty (sendFailMsg none "boom"))).1,
       (Conn.Disconnect (⟨0, [], some ⟨1⟩, 1, 2⟩ : Conn Nat)
          (Conn.error (⟨0, [], some ⟨1⟩, 1, 2⟩ : Conn Nat) World.empty (sendFailMsg none "boom"))).2,
       [SendEvent.wrote [3] none, SendEvent.disconnected]) ∧
    Conn.receiving (⟨0, [], some ⟨9⟩, 1, 2⟩ : Conn Nat) World.empty []
        [ReadOutcome.err "readfail"] =
      Conn.Disconnect (⟨0, [], some ⟨9⟩, 1, 2⟩ : Conn Nat)
        (Conn.error (⟨0, [], some ⟨9⟩, 1, 2⟩ : Conn Nat) World.empty
          ("conn.receiving(): " ++ "readfail")) :=
  c1_io_fault_fatal (⟨0, [], some ⟨1⟩, 1, 2⟩ : Conn Nat) (⟨0, [], some ⟨9⟩, 1, 2⟩ : Conn Nat)
    World.empty World.empty ⟨none, [3]⟩ ⟨1⟩ "boom" "readfail" [] [] [] rfl

/-- Claim C4: a non-nil packet with no destination address dequeued while the
connection is not connected makes the sender report the wrapped
`ErrClosedConn` message on the error channel and continue with the next
packet: no socket write is attempted (no `wrote` event is added), the loop
does not terminate, and no disconnect happens at this step. -/
theorem c4_no_addr_not_connected {H : Type} (conn : Conn H) (w : World)
    (msg : Message) (wres : Except String Nat)
    (rest : List (Option Packet × Except String Nat)) (h : conn.sock = none) :
    conn.sending w ((some ⟨none, msg⟩, wres) :: rest) =
      conn.sending
        (conn.error w ("conn.sending(): [" ++ udpAddrString none ++ "] " ++ ErrClosedConn)) rest := by
  simp [Conn.sending, Conn.IsConnected, h]

/-- Witness for claim C4: the not-connected, address-less packet case evaluated on a
concrete disconnected connection. -/
theorem c4_no_addr_not_connected_w :
    Conn.sending (⟨0, [], none, 1, 2⟩ : Conn Nat) World.empty [(some ⟨none, [42]⟩, Except.ok 0)] =
      Conn.sending (⟨0, [], none, 1, 2⟩ : Conn Nat)
        (Conn.error (⟨0, [], none, 1, 2⟩ : Conn Nat) World.empty
          ("conn.sending(): [" ++ udpAddrString none ++ "] " ++ ErrClosedConn)) [] :=
  c4_no_addr_not_connected (⟨0, [], none, 1, 2⟩ : Conn Nat) World.empty [42] (Except.ok 0) [] rfl

/-- Claim C5: `Listen` and `Dial` on a connected connection return
`ErrAlreadyConnected` synchronously with the connection unchanged (they
never touch the world's channels at all); and after a successful `Listen`,
a second `Listen` without an intervening `Disconnect` returns
`ErrAlreadyConnected`. -/
theorem c5_already_connected_rejected {H : Type} (conn : Conn H) (s : UDPConn)
    (port : Nat) (remoteAddr : String) (netw : Net)
    (c0 c1 : Conn H) (port1 port2 : Nat) (n1 n2 : Net)
    (h : conn.sock = some s) (h2 : c0.Listen port1 n1 = (c1, none)) :
    conn.Listen port netw = (conn, some ErrAlreadyConnected) ∧
    conn.Dial remoteAddr netw = (conn, some ErrAlreadyConnected) ∧
    c1.Listen port2 n2 = (c1, some ErrAlreadyConnected) := by
  have hc : conn.IsConnected = true := by simp [Conn.IsConnected, h]
  have hc1 : c1.IsConnected = true := by
    rw [Conn.Listen] at h2
    split at h2
    · simp at h2
    · split at h2
      · simp at h2
      · split at h2
        · simp at h2
        · have hfst := congrArg Prod.fst h2
          simp only at hfst
          rw [← hfst]
          rfl
  refine ⟨?_, ?_, ?_⟩
  · simp [Conn.Listen, hc]
  · simp [Conn.Dial, hc]
  · simp [Conn.Listen, hc1]

/-- Witness for claim C5: double-connect rejection evaluated on concrete
connections and the all-success network oracle. -/
theorem c5_already_connected_rejected_w :
    Conn.Listen (⟨0, [], some ⟨3⟩, 1, 2⟩ : Conn Nat) 9 sampleNet =
      (⟨0, [], some ⟨3⟩, 1, 2⟩, some ErrAlreadyConnected) ∧
    Conn.Dial (⟨0, [], some ⟨3⟩, 1, 2⟩ : Conn Nat) "r:1" sampleNet =
      (⟨0, [], some ⟨3⟩, 1, 2⟩, some ErrAlreadyConnected) ∧
    Conn.Listen (⟨0, [], some ⟨7⟩, 1, 2⟩ : Conn Nat) 6 sampleNet =
      (⟨0, [], some ⟨7⟩, 1, 2⟩, some ErrAlreadyConnected) :=
  c5_already_connected_rejected (⟨0, [], some ⟨3⟩, 1, 2⟩ : Conn Nat) ⟨3⟩ 9 "r:1" sampleNet
    (⟨0, [], none, 1, 2⟩ : Conn Nat) (⟨0, [], some ⟨7⟩, 1, 2⟩ : Conn Nat) 5 6 sampleNet sampleNet
    rfl rfl

/-- Claim C2: immediately after `Disconnect` returns, the connection is
disconnected: the socket handle is nil, `IsConnected` is false, the three
channel fields point to freshly allocated channels (open, empty, with the
original capacities — 0 for `in` and `out`, 4 for `Err`) distinct from the
channels held before the call; a subsequent `Listen` or `Dial` whose
network operations succeed connects the instance; and in general
`IsConnected` is true iff the socket handle is non-nil. -/
theorem c2_disconnect_disconnects {H : Type} (conn : Conn H) (w : World)
    (hin : conn.in_ < w.pchans.next) (hout : conn.out < w.pchans.next)
    (herr : conn.Err < w.echans.next) :
    ((conn.Disconnect w).1).sock = none ∧
    Conn.IsConnected (conn.Disconnect w).1 = false ∧
    (conn.Disconnect w).2.pchans.store ((conn.Disconnect w).1).in_ = some ⟨0, [], false⟩ ∧
    (conn.Disconnect w).2.pchans.store ((conn.Disconnect w).1).out = some ⟨0, [], false⟩ ∧
    (conn.Disconnect w).2.echans.store ((conn.Disconnect w).1).Err = some ⟨4, [], false⟩ ∧
    ((conn.Disconnect w).1).in_ ≠ conn.in_ ∧
    ((conn.Disconnect w).1).out ≠ conn.out ∧
    ((conn.Disconnect w).1).Err ≠ conn.Err ∧
    (∀ port netw a s, netw.resolveUDPAddr (":" ++ toString port) = Except.ok a →
      netw.listenUDP "udp4" a = Except.ok s →
      Conn.Listen (conn.Disconnect w).1 port netw =
        ({ (conn.Disconnect w).1 with sock := some s }, none)) ∧
    (∀ remoteAddr netw a s, netw.resolveUDPAddr remoteAddr = Except.ok a →
      netw.dialUDP "udp4" none a = Except.ok s →
      Conn.Dial (conn.Disconnect w).1 remoteAddr netw =
        ({ (conn.Disconnect w).1 with sock := some s }, none)) ∧
    (∀ c : Conn H, Conn.IsConnected c = true ↔ c.sock ≠ none) := by
  rw [Disconnect_fst, Disconnect_snd_pchans, Disconnect_snd_echans]
  refine ⟨rfl, rfl, ?_, ?_, ?_,
    (by show w.pchans.next ≠ conn.in_; omega),
    (by show w.pchans.next + 1 ≠ conn.out; omega),
    (by show w.echans.next ≠ conn.Err; omega), ?_, ?_, ?_⟩
  · show (if w.pchans.next = w.pchans.next + 1 then some (Chan.make 0)
      else if w.pchans.next = w.pchans.next then some (Chan.make 0)
      else ((w.pchans.closeCh conn.in_).closeCh conn.out).store w.pchans.next) = some ⟨0, [], false⟩
    rw [if_neg (by omega), if_pos rfl]
    rfl
  · show (if w.pchans.next + 1 = w.pchans.next + 1 then some (Chan.make 0)
      else if w.pchans.next + 1 = w.pchans.next then some (Chan.make 0)
      else ((w.pchans.closeCh conn.in_).closeCh conn.out).store (w.pchans.next + 1)) = some ⟨0, [], false⟩
    rw [if_pos rfl]
    rfl
  · show (if w.echans.next = w.echans.next then some (Chan.make 4)
      else (w.echans.closeCh conn.Err).store w.echans.next) = some ⟨4, [], false⟩
    rw [if_pos rfl]
    rfl
  · intro port netw a s hres hl
    simp [Conn.Listen, Conn.IsConnected, hres, hl]
  · intro remoteAddr netw a s hres hl
    simp [Conn.Dial, Conn.IsConnected, hres, hl]
  · intro c
    simp [Conn.IsConnected, Option.isSome_iff_ne_none]

/-- Witness for claim C2: the disconnect postcondition evaluated on a concrete
connected connection in a world with three previously allocated channels,
with the reconnect clauses instantiated at the all-success network
oracle. -/
theorem c2_disconnect_disconnects_w :
    ((Conn.Disconnect (⟨0, [], some ⟨2⟩, 0, 1⟩ : Conn Nat)
        (⟨⟨3, fun _ => none⟩, ⟨1, fun _ => none⟩, []⟩ : World)).1).sock = none ∧
    Conn.IsConnected (Conn.Disconnect (⟨0, [], some ⟨2⟩, 0, 1⟩ : Conn Nat)
        (⟨⟨3, fun _ => none⟩, ⟨1, fun _ => none⟩, []⟩ : World)).1 = false ∧
    (Conn.Disconnect (⟨0, [], some ⟨2⟩, 0, 1⟩ : Conn Nat)
        (⟨⟨3, fun _ => none⟩, ⟨1, fun _ => none⟩, []⟩ : World)).2.pchans.store
      ((Conn.Disconnect (⟨0, [], some ⟨2⟩, 0, 1⟩ : Conn Nat)
        (⟨⟨3, fun _ => none⟩, ⟨1, fun _ => none⟩, []⟩ : World)).1).in_ = some ⟨0, [], false⟩ ∧
    (Conn.Disconnect (⟨0, [], some ⟨2⟩, 0, 1⟩ : Conn Nat)
        (⟨⟨3, fun _ => none⟩, ⟨1, fun _ => none⟩, []⟩ : World)).2.pchans.store
      ((Conn.Disconnect (⟨0, [], some ⟨2⟩, 0, 1⟩ : Conn Nat)
        (⟨⟨3, fun _ => none⟩, ⟨1, fun _ => none⟩, []⟩ : World)).1).out = some ⟨0, [], false⟩ ∧
    (Conn.Disconnect (⟨0, [], some ⟨2⟩, 0, 1⟩ : Conn Nat)
        (⟨⟨3, fun _ => none⟩, ⟨1, fun _ => none⟩, []⟩ : World)).2.echans.store
      ((Conn.Disconnect (⟨0, [], some ⟨2⟩, 0, 1⟩ : Conn Nat)
        (⟨⟨3, fun _ => none⟩, ⟨1, fun _ => none⟩, []⟩ : World)).1).Err = some ⟨4, [], false⟩ ∧
    ((Conn.Disconnect (⟨0, [], some ⟨2⟩, 0, 1⟩ : Conn Nat)
        (⟨⟨3, fun _ => none⟩, ⟨1, fun _ => none⟩, []⟩ : World)).1).in_ ≠ 0 ∧
    ((Conn.Disconnect (⟨0, [], some ⟨2⟩, 0, 1⟩ : Conn Nat)
        (⟨⟨3, fun _ => none⟩, ⟨1, fun _ => none⟩, []⟩ : World)).1).out ≠ 1 ∧
    ((Conn.Disconnect (⟨0, [], some ⟨2⟩, 0, 1⟩ : Conn Nat)
        (⟨⟨3, fun _ => none⟩, ⟨1, fun _ => none⟩, []⟩ : World)).1).Err ≠ 0 ∧
    Conn.Listen (Conn.Disconnect (⟨0, [], some ⟨2⟩, 0, 1⟩ : Conn Nat)
        (⟨⟨3, fun _ => none⟩, ⟨1, fun _ => none⟩, []⟩ : World)).1 5 sampleNet =
      ({ (Conn.Disconnect (⟨0, [], some ⟨2⟩, 0, 1⟩ : Conn Nat)
        (⟨⟨3, fun _ => none⟩, ⟨1, fun _ => none⟩, []⟩ : World)).1 with sock := some ⟨7⟩ }, none) ∧
    Conn.Dial (Conn.Disconnect (⟨0, [], some ⟨2⟩, 0, 1⟩ : Conn Nat)
        (⟨⟨3, fun _ => none⟩, ⟨1, fun _ => none⟩, []⟩ : World)).1 "r:1" sampleNet =
      ({ (Conn.Disconnect (⟨0, [], some ⟨2⟩, 0, 1⟩ : Conn Nat)
        (⟨⟨3, fun _ => none⟩, ⟨1, fun _ => none⟩, []⟩ : World)).1 with sock := some ⟨8⟩ }, none) ∧
    (Conn.IsConnected (⟨0, [], some ⟨2⟩, 0, 1⟩ : Conn Nat) = true ↔
      (⟨0, [], some ⟨2⟩, 0, 1⟩ : Conn Nat).sock ≠ none) := by
  have h := c2_disconnect_disconnects (⟨0, [], some ⟨2⟩, 0, 1⟩ : Conn Nat)
    (⟨⟨3, fun _ => none⟩, ⟨1, fun _ => none⟩, []⟩ : World) (by decide) (by decide) (by decide)
  exact ⟨h.1, h.2.1, h.2.2.1, h.2.2.2.1, h.2.2.2.2.1, h.2.2.2.2.2.1, h.2.2.2.2.2.2.1,
    h.2.2.2.2.2.2.2.1, h.2.2.2.2.2.2.2.2.1 5 sampleNet ⟨"h", 1⟩ ⟨7⟩ rfl rfl,
    h.2.2.2.2.2.2.2.2.2.1 "r:1" sampleNet ⟨"h", 1⟩ ⟨8⟩ rfl rfl,
    h.2.2.2.2.2.2.2.2.2.2 (⟨0, [], some ⟨2⟩, 0, 1⟩ : Conn Nat)⟩

/-- Claim C9: the error channel is created with capacity exactly 4 (open and
empty), and the error channel held by the caller when `Disconnect` is
invoked is closed by `Disconnect` (its capacity and buffered contents are
untouched; only the closed flag is set). -/
theorem c9_err_channel {H : Type} (conn : Conn H) (w w2 : World) (ch : Chan String)
    (herr : conn.Err < w.echans.next)
    (hch : w.echans.store conn.Err = some ch) :
    (conn.Disconnect w).2.echans.store conn.Err = some ⟨ch.capacity, ch.buffer, true⟩ ∧
    ((NewConn H w2).2).echans.store ((NewConn H w2).1).Err = some ⟨4, [], false⟩ := by
  constructor
  · rw [Disconnect_snd_echans]
    show (if conn.Err = w.echans.next then some (Chan.make 4)
      else (w.echans.closeCh conn.Err).store conn.Err) = some ⟨ch.capacity, ch.buffer, true⟩
    rw [if_neg (by omega)]
    show (if conn.Err = conn.Err then (w.echans.store conn.Err).map (fun c => { c with closed := true })
      else w.echans.store conn.Err) = some ⟨ch.capacity, ch.buffer, true⟩
    rw [if_pos rfl, hch]
    rfl
  · show (if w2.echans.next = w2.echans.next then some (Chan.make 4)
      else w2.echans.store (NewConn H w2).1.Err) = some ⟨4, [], false⟩
    rw [if_pos rfl]
    rfl

/-- Witness for claim C9: the capacity-4 creation and the close-on-disconnect
behaviour evaluated on a concrete connection whose error channel holds one
buffered message. -/
theorem c9_err_channel_w :
    (Conn.Disconnect (⟨0, [], none, 1, 2⟩ : Conn Nat)
        (⟨⟨0, fun _ => none⟩, ⟨1, fun i => if i = 0 then some ⟨4, ["x"], false⟩ else none⟩, []⟩ : World)).2.echans.store 0 =
      some ⟨4, ["x"], true⟩ ∧
    ((NewConn Nat World.empty).2).echans.store ((NewConn Nat World.empty).1).Err =
      some ⟨4, [], false⟩ :=
  c9_err_channel (⟨0, [], none, 1, 2⟩ : Conn Nat)
    (⟨⟨0, fun _ => none⟩, ⟨1, fun i => if i = 0 then some ⟨4, ["x"], false⟩ else none⟩, []⟩ : World)
    World.empty ⟨4, ["x"], false⟩ (by decide) (by decide)

end Gossip
